import Mathlib

/-!
# Verification of the gogoo cloud-wrapper library

Shallow embedding of the behaviourally relevant parts of the gogoo
repository (Go): the `gds` datastore access layer (`gdsmanager.go`),
the `gce` compute-engine manager with its status-polling loops
(`gcemanager.go`), and the `replicapoolupdater` wrapper
(`replicapoolupdater.go`).  External services (datastore, compute API)
are modelled by explicit state or by oracle functions giving the
response of each successive API call; machine time is modelled by a
counter of elapsed seconds advanced by the `time.Sleep` calls of the
source.
-/

namespace Gogoo

namespace Gds

/-- A datastore key: `datastore.NewKey(ctx, kind, keyName, 0, nil)`. -/
structure Key where
  kind : String
  name : String
deriving DecidableEq

/-- The datastore state: a finite association of keys to entities of
type `α` (one Go entity value per key). -/
abbrev Datastore (α : Type) : Type := List (Key × α)

/-- `Client.Get` semantics on a store: the entity stored under `k`,
or `none` when no entity with that key exists (Go: `ErrNoSuchEntity`). -/
def dsGet {α : Type} (store : Datastore α) (k : Key) : Option α :=
  (store.find? (fun p => p.1 = k)).map (fun p => p.2)

/-- Insert-or-update of one key (the effect of a committed put). -/
def dsUpsert {α : Type} (store : Datastore α) (k : Key) (e : α) : Datastore α :=
  if (store.find? (fun p => p.1 = k)).isSome then
    store.map (fun p => if p.1 = k then (k, e) else p)
  else
    store ++ [(k, e)]

/-- A datastore transaction: a snapshot of the store plus the buffered
puts, applied to the store only by `Commit`. -/
structure Tx (α : Type) where
  base : Datastore α
  puts : List (Key × α)

/-- `Manager.GetTx`: a fresh transaction on the current store
(`Client.NewTransaction`; its error return is discarded by the source). -/
def GetTx {α : Type} (store : Datastore α) : Tx α :=
  { base := store, puts := [] }

/-- `tx.Get`: reads from the transaction's snapshot; `none` models the
non-nil error returned when the key is absent. -/
def txGet {α : Type} (tx : Tx α) (k : Key) : Option α :=
  dsGet tx.base k

/-- `tx.Put`: buffers a pending put inside the transaction. -/
def txPut {α : Type} (tx : Tx α) (k : Key) (e : α) : Tx α :=
  { tx with puts := tx.puts ++ [(k, e)] }

/-- `tx.Commit`: applies the buffered puts to the snapshot, producing
the new store. -/
def txCommit {α : Type} (tx : Tx α) : Datastore α :=
  tx.puts.foldl (fun st p => dsUpsert st p.1 p.2) tx.base

/-- `Manager.PutUnique` (gdsmanager.go): opens a transaction, errors if
`tx.Get` finds the key, otherwise puts the entity and commits.  The
failure of the underlying `tx.Put` / `tx.Commit` RPCs is an input of the
model (`putFails` / `commitFails`); an uncommitted transaction leaves
the store unchanged.  Returns (error message if any, resulting store). -/
def PutUnique {α : Type} (store : Datastore α) (putFails commitFails : Bool)
    (k : Key) (e : α) : Option String × Datastore α :=
  let tx := GetTx store
  match txGet tx k with
  | some _ => (some "entity existed, unique condition violation!!", store)
  | none =>
    if putFails then
      (some "put fails", store)
    else
      let tx := txPut tx k e
      if commitFails then
        (some "commit fails", store)
      else
        (none, txCommit tx)

/-- `Manager.DeleteAll` (gdsmanager.go): runs a keys-only query for the
kind (`queryFails` models the failure of that RPC), then deletes the
found keys one by one; a failing `Delete` (`deleteFails`) is only
logged, never returned.  Returns (error message if any, resulting
store of keys). -/
def DeleteAll (store : List Key) (queryFails : Bool) (deleteFails : Key → Bool)
    (kindName : String) : Option String × List Key :=
  if queryFails then
    (some "query fails", store)
  else
    let keys := store.filter (fun k => k.kind = kindName)
    (none, keys.foldl
      (fun st k => if deleteFails k then st else st.filter (fun k2 => k2 ≠ k)) store)

/-- A datastore cursor string for a position `n` in a query's result
sequence; the concrete encoding is opaque in the real API, the model
only needs it injective and never empty. -/
def encodeCursor (n : Nat) : String :=
  String.mk (List.replicate (n + 1) 'c')

/-- `datastore.DecodeCursor`: recovers the position from a cursor
string, failing (`none`) on a string that is not a valid cursor. -/
def decodeCursor (s : String) : Option Nat :=
  if s.data.all (fun ch => ch = 'c') && !s.data.isEmpty then
    some (s.data.length - 1)
  else
    none

/-- The start position of an `Iterate` call: an empty cursor string
skips decoding and starts at the beginning of the result sequence. -/
def startOfCursor (s : String) : Option Nat :=
  if s = "" then some 0 else decodeCursor s

/-- The iterator returned by `Client.Run`: the entities not yet
yielded, and the absolute position in the full result sequence (what
`it.Cursor()` encodes). -/
structure QueryIter (α : Type) where
  remaining : List (Key × α)
  pos : Nat

/-- Applying a query's `Limit` to a result sequence. -/
def applyLimit {α : Type} (l : List (Key × α)) : Option Nat → List (Key × α)
  | none => l
  | some b => l.take b

/-- Running a query: the full result sequence of the query is
`results`; a start cursor drops the entities before it and `Limit`
truncates what remains. -/
def runQuery {α : Type} (results : List (Key × α)) (start : Nat)
    (limit : Option Nat) : QueryIter α :=
  { remaining := applyLimit (results.drop start) limit, pos := start }

/-- The `it.Next` collection loop of `Manager.Iterate`: drains the
iterator into `entityArr` (each entry holding `dst.Clone()`), returning
the collected entities and the exhausted iterator. -/
def collectAll {α : Type} : QueryIter α → List (Key × α) × QueryIter α
  | ⟨[], pos⟩ => ([], ⟨[], pos⟩)
  | ⟨e :: rest, pos⟩ =>
    let r := collectAll ⟨rest, pos + 1⟩
    (e :: r.1, r.2)
termination_by it => it.remaining.length
decreasing_by simp

/-- `Manager.Iterate` (gdsmanager.go): decodes the cursor (error on a
bad non-empty cursor string), collects every entity the query yields,
applies `op` once to each collected entity (one goroutine per entity,
all awaited), and returns `it.Cursor()`.  The returned list is the
trace of `op` applications, in spawn order; the returned string is the
next cursor. -/
def Iterate {α : Type} (results : List (Key × α)) (limit : Option Nat)
    (cursorStr : String) : Except String (List (Key × α) × String) :=
  match startOfCursor cursorStr with
  | none => Except.error "Bad cursor"
  | some start =>
    let r := collectAll (runQuery results start limit)
    Except.ok (r.1, encodeCursor r.2.pos)

/-- The loop of `Manager.BatchIterate`: repeatedly `Iterate` with the
page-limited query, stopping when the returned cursor equals the cursor
the round started with.  The Go loop has no fuel; the `fuel` parameter
only bounds the recursion, and `BatchIterate` supplies enough fuel for
the loop to reach its cursor-equality exit (proved below). -/
def batchIterateAux {α : Type} (results : List (Key × α)) (batchSize : Nat) :
    String → Nat → Except String (List (Key × α))
  | _, 0 => Except.error "loop does not terminate"
  | cursor, fuel + 1 =>
    match Iterate results (some batchSize) cursor with
    | Except.error e => Except.error e
    | Except.ok (page, nxt) =>
      if cursor = nxt then
        Except.ok page
      else
        match batchIterateAux results batchSize nxt fuel with
        | Except.error e => Except.error e
        | Except.ok rest => Except.ok (page ++ rest)

/-- `Manager.BatchIterate` (gdsmanager.go): pages through the query
with `query.Limit(batchSize)` starting from the empty cursor.  Returns
the trace of `op` applications over all rounds. -/
def BatchIterate {α : Type} (results : List (Key × α)) (batchSize : Nat) :
    Except String (List (Key × α)) :=
  batchIterateAux results batchSize "" (results.length + 2)

end Gds

namespace Gce

/-- gcemanager.go timeout constants, in seconds. -/
def vmCreationTimeout : Nat := 180

/-- `VMStoppingTimeout` (180 s). -/
def vmStoppingTimeout : Nat := 180

/-- `DiskCreationTimeout` (180 s). -/
def diskCreationTimeout : Nat := 180

/-- `VMSetMachineTypeTimeout` (180 s). -/
def vmSetMachineTypeTimeout : Nat := 180

/-- `InstanceTemplateCreationTimeout` (180 s). -/
def instanceTemplateCreationTimeout : Nat := 180

/-- `VMStatusTerminated`. -/
def vmStatusTerminated : String := "TERMINATED"

/-- `VMStatusRunning`. -/
def vmStatusRunning : String := "RUNNING"

/-- The outcome of one `GetVM` / `GetDisk` poll: `err` when the call
returned a non-nil error, `ok status` when it returned a resource whose
`Status` field is `status`. -/
inductive Poll where
  | err : Poll
  | ok (status : String) : Poll
deriving DecidableEq

/-- What a probe loop did: the boolean it sent on the observer channel,
the elapsed seconds when it sent it, and how many polls it made. -/
structure ProbeResult where
  sent : Bool
  elapsed : Nat
  numPolls : Nat
deriving DecidableEq

/-- `Manager.ProbeVMRunning` (gcemanager.go): until more than
`VMCreationTimeout` has elapsed, polls `GetVM`; on an error or a status
other than `"RUNNING"` sleeps 10 s and retries; sends `true` once the
status is `"RUNNING"`, `false` on timeout.  `polls k` is the outcome of
the `k`-th poll; `elapsed` counts seconds since `startTime`. -/
def ProbeVMRunning (polls : Nat → Poll) (elapsed k : Nat) : ProbeResult :=
  if vmCreationTimeout < elapsed then
    ⟨false, elapsed, k⟩
  else
    match polls k with
    | Poll.err => ProbeVMRunning polls (elapsed + 10) (k + 1)
    | Poll.ok status =>
      if status ≠ "RUNNING" then
        ProbeVMRunning polls (elapsed + 10) (k + 1)
      else
        ⟨true, elapsed, k + 1⟩
termination_by vmCreationTimeout + 1 - elapsed
decreasing_by all_goals (simp [vmCreationTimeout] at *; omega)

/-- `Manager.ProbeVMStopped` (gcemanager.go): same loop with target
status `VMStatusTerminated` and timeout `VMStoppingTimeout`. -/
def ProbeVMStopped (polls : Nat → Poll) (elapsed k : Nat) : ProbeResult :=
  if vmStoppingTimeout < elapsed then
    ⟨false, elapsed, k⟩
  else
    match polls k with
    | Poll.err => ProbeVMStopped polls (elapsed + 10) (k + 1)
    | Poll.ok status =>
      if status ≠ vmStatusTerminated then
        ProbeVMStopped polls (elapsed + 10) (k + 1)
      else
        ⟨true, elapsed, k + 1⟩
termination_by vmStoppingTimeout + 1 - elapsed
decreasing_by all_goals (simp [vmStoppingTimeout] at *; omega)

/-- `Manager.ProbeDiskCreation` (gcemanager.go): polls `GetDisk`; on an
error sleeps 10 s, on a status other than `"READY"` sleeps 5 s; sends
`true` once the status is `"READY"`, `false` on timeout. -/
def ProbeDiskCreation (polls : Nat → Poll) (elapsed k : Nat) : ProbeResult :=
  if diskCreationTimeout < elapsed then
    ⟨false, elapsed, k⟩
  else
    match polls k with
    | Poll.err => ProbeDiskCreation polls (elapsed + 10) (k + 1)
    | Poll.ok status =>
      if status ≠ "READY" then
        ProbeDiskCreation polls (elapsed + 5) (k + 1)
      else
        ⟨true, elapsed, k + 1⟩
termination_by diskCreationTimeout + 1 - elapsed
decreasing_by all_goals (simp [diskCreationTimeout] at *; omega)

/-- `gosak.GetLastSplit`: the last piece of `s` split on `sep`. -/
def getLastSplit (s sep : String) : String :=
  (s.splitOn sep).getLastD ""

/-- `Manager.ProbeVMMachineTypeChanged` (gcemanager.go): polls `GetVM`
(`polls k` is `none` on error, `some uri` giving the VM's `MachineType`
URI); retries after 10 s while the last URI segment differs from the
target `machineType`; sends `true` once it matches, `false` on
timeout. -/
def ProbeVMMachineTypeChanged (machineType : String) (polls : Nat → Option String)
    (elapsed k : Nat) : ProbeResult :=
  if vmSetMachineTypeTimeout < elapsed then
    ⟨false, elapsed, k⟩
  else
    match polls k with
    | none => ProbeVMMachineTypeChanged machineType polls (elapsed + 10) (k + 1)
    | some uri =>
      if getLastSplit uri "/" ≠ machineType then
        ProbeVMMachineTypeChanged machineType polls (elapsed + 10) (k + 1)
      else
        ⟨true, elapsed, k + 1⟩
termination_by vmSetMachineTypeTimeout + 1 - elapsed
decreasing_by all_goals (simp [vmSetMachineTypeTimeout] at *; omega)

/-- `Manager.ProbeInstanceTemplateCreation` (gcemanager.go): polls
`GetInstanceTemplate` (`polls k = true` when the call succeeded);
retries after 10 s on error; sends `true` on the first successful
fetch, `false` on timeout. -/
def ProbeInstanceTemplateCreation (polls : Nat → Bool) (elapsed k : Nat) : ProbeResult :=
  if instanceTemplateCreationTimeout < elapsed then
    ⟨false, elapsed, k⟩
  else
    if polls k then
      ⟨true, elapsed, k + 1⟩
    else
      ProbeInstanceTemplateCreation polls (elapsed + 10) (k + 1)
termination_by instanceTemplateCreationTimeout + 1 - elapsed
decreasing_by all_goals (simp [instanceTemplateCreationTimeout] at *; omega)

/-- `Manager.NewVM` (gcemanager.go): issues `Instances.Insert`
(`insertFails` models its error), then spawns `ProbeVMRunning` on a
fresh bool channel and blocks on it; a received `false` becomes the
`"NewVM timeout"` error.  Returns the error message, `none` on
success. -/
def NewVM (insertFails : Bool) (polls : Nat → Poll) : Option String :=
  if insertFails then
    some "insert fails"
  else
    if (ProbeVMRunning polls 0 0).sent then none else some "NewVM timeout"

/-- `Manager.NewDisk` (gcemanager.go): `Disks.Insert` then blocks on
`ProbeDiskCreation`. -/
def NewDisk (insertFails : Bool) (polls : Nat → Poll) : Option String :=
  if insertFails then
    some "insert fails"
  else
    if (ProbeDiskCreation polls 0 0).sent then none else some "NewDisk timeout"

/-- `Manager.SetMachineType` (gcemanager.go): issues the
`SetMachineType` request then blocks on `ProbeVMMachineTypeChanged`. -/
def SetMachineType (requestFails : Bool) (machineType : String)
    (polls : Nat → Option String) : Option String :=
  if requestFails then
    some "request fails"
  else
    if (ProbeVMMachineTypeChanged machineType polls 0 0).sent then none
    else some "SetMachineType timeout"

/-- `Manager.NewInstanceTemplate` (gcemanager.go): issues
`InstanceTemplates.Insert` then blocks on
`ProbeInstanceTemplateCreation`. -/
def NewInstanceTemplate (insertFails : Bool) (polls : Nat → Bool) : Option String :=
  if insertFails then
    some "insert fails"
  else
    if (ProbeInstanceTemplateCreation polls 0 0).sent then none
    else some "Timeout new instance template"

/-- A compute snapshot, carrying the field the source reads. -/
structure Snapshot where
  name : String
deriving DecidableEq

/-- `strings.Contains(s, sub)`: `sub` occurs somewhere inside `s`. -/
def strContains (s sub : String) : Bool :=
  decide (List.IsInfix sub.data s.data)

/-- `Manager.GetLatestSnapshot` (gcemanager.go): keeps the snapshots
whose name contains `pfx`, sorts them by name (`BySnapshotName`, i.e.
`Name <`), and returns the last one; `none` models the
`"No snapshot found"` error. -/
def GetLatestSnapshot (pfx : String) (snapshots : List Snapshot) : Option Snapshot :=
  let filtered := snapshots.filter (fun s => strContains s.name pfx)
  let sorted := filtered.mergeSort (fun a b => decide (a.name ≤ b.name))
  sorted.getLast?

/-- An access config of a network interface (`NatIP` field). -/
structure AccessConfig where
  natIP : String

/-- A network interface of a VM. -/
structure NetworkInterface where
  accessConfigs : List AccessConfig
  networkIP : String

/-- A compute instance, with the fields the source reads. -/
structure Instance where
  name : String
  networkInterfaces : List NetworkInterface

/-- `Manager.GetNatIP` (gcemanager.go): `"missing"` for a nil VM,
otherwise `vm.NetworkInterfaces[0].AccessConfigs[0].NatIP`; the result
is `none` exactly when that Go expression panics (index out of
range). -/
def GetNatIP (vm : Option Instance) : Option String :=
  match vm with
  | none => some "missing"
  | some v =>
    (v.networkInterfaces.head?).bind (fun ni =>
      (ni.accessConfigs.head?).map (fun ac => ac.natIP))

/-- `Manager.GetNetworkIP` (gcemanager.go): `"missing"` for a nil VM,
otherwise `vm.NetworkInterfaces[0].NetworkIP`; `none` models the
panic on an empty interface list. -/
def GetNetworkIP (vm : Option Instance) : Option String :=
  match vm with
  | none => some "missing"
  | some v =>
    (v.networkInterfaces.head?).map (fun ni => ni.networkIP)

end Gce

namespace Rpu

/-- The fixed error value `errRollingUpdate` of
replicapoolupdater.go. -/
def errRollingUpdate : String := "RollingUpdate Error"

/-- `RpuManager.Insert`: forwards the SDK call's result `sdk` (`ok`
carrying the `*rpu.Operation` response, `error` a failure); on success
the response is returned unchanged with a nil error, on failure `nil`
with the fixed error. -/
def RpuInsert {α : Type} (sdk : Except String α) : Option α × Option String :=
  match sdk with
  | Except.error _ => (none, some errRollingUpdate)
  | Except.ok op => (some op, none)

/-- `RpuManager.List`: same translation for the
`*rpu.RollingUpdateList` response. -/
def RpuList {α : Type} (sdk : Except String α) : Option α × Option String :=
  match sdk with
  | Except.error _ => (none, some errRollingUpdate)
  | Except.ok list => (some list, none)

/-- `RpuManager.Rollback`: same translation for the `*rpu.Operation`
response. -/
def RpuRollback {α : Type} (sdk : Except String α) : Option α × Option String :=
  match sdk with
  | Except.error _ => (none, some errRollingUpdate)
  | Except.ok op => (some op, none)

end Rpu

/-- How many goroutines one execution of a construct spawns. -/
inductive GoroutineCount where
  | one : GoroutineCount
  | onePerEntity : GoroutineCount
deriving DecidableEq

/-- How the spawning code awaits the goroutines it spawned. -/
inductive AwaitMechanism where
  | boolChannelReceive : AwaitMechanism
  | waitGroupWait : AwaitMechanism
deriving DecidableEq

/-- One concurrent construct of the repository's sources. -/
structure ConcurrencySite where
  location : String
  goroutines : GoroutineCount
  await : AwaitMechanism
deriving DecidableEq

/-- The catalogue of every `go` statement in the repository's non-test
sources: four single-goroutine probe launches in gcemanager.go awaited
by receiving one bool from a channel, and the per-entity `op`
goroutines of `Manager.Iterate` in gdsmanager.go awaited by
`sync.WaitGroup.Wait`. -/
def concurrencySites : List ConcurrencySite :=
  [⟨"gce.Manager.NewVM", GoroutineCount.one, AwaitMechanism.boolChannelReceive⟩,
   ⟨"gce.Manager.SetMachineType", GoroutineCount.one, AwaitMechanism.boolChannelReceive⟩,
   ⟨"gce.Manager.NewDisk", GoroutineCount.one, AwaitMechanism.boolChannelReceive⟩,
   ⟨"gce.Manager.NewInstanceTemplate", GoroutineCount.one, AwaitMechanism.boolChannelReceive⟩,
   ⟨"gds.Manager.Iterate", GoroutineCount.onePerEntity, AwaitMechanism.waitGroupWait⟩]

/-! ## Theorems -/

/-- C1: `PutUnique(k, e)` returns an error and leaves the datastore
unchanged when an entity with key `k` already exists; when no entity
with key `k` exists it writes `e` under `k` through a single committed
transaction and returns nil, and it returns an error only if the
transactional put or the commit fails. -/
theorem C1_PutUnique_spec {α : Type} (store : Gds.Datastore α)
    (putFails commitFails : Bool) (k : Gds.Key) (e : α) :
    ((Gds.dsGet store k ≠ none) →
      Gds.PutUnique store putFails commitFails k e =
        (some "entity existed, unique condition violation!!", store))
  ∧ (Gds.dsGet store k = none → putFails = false → commitFails = false →
      Gds.PutUnique store putFails commitFails k e = (none, Gds.dsUpsert store k e))
  ∧ (Gds.dsGet store k = none →
      ((Gds.PutUnique store putFails commitFails k e).1 ≠ none ↔
        (putFails = true ∨ commitFails = true))) := by
  cases hd : Gds.dsGet store k with
  | some a =>
    refine ⟨fun _ => ?_, fun h => by simp [hd] at h, fun h => by simp [hd] at h⟩
    simp [Gds.PutUnique, Gds.txGet, Gds.GetTx, hd]
  | none =>
    refine ⟨fun h => absurd rfl h, fun _ hp hc => ?_, fun _ => ?_⟩
    · simp [Gds.PutUnique, Gds.txGet, Gds.GetTx, hd, hp, hc,
        Gds.txCommit, Gds.txPut]
    · cases putFails <;> cases commitFails <;>
        simp [Gds.PutUnique, Gds.txGet, Gds.GetTx, hd]

/-- Witness for C1 at a concrete store. -/
theorem C1_PutUnique_spec_witness :
    Gds.PutUnique [((⟨"K", "a"⟩ : Gds.Key), (1 : Nat))] false false ⟨"K", "b"⟩ 2 =
      (none, Gds.dsUpsert [((⟨"K", "a"⟩ : Gds.Key), (1 : Nat))] ⟨"K", "b"⟩ 2) :=
  (C1_PutUnique_spec [((⟨"K", "a"⟩ : Gds.Key), (1 : Nat))] false false ⟨"K", "b"⟩ 2).2.1
    (by decide) rfl rfl

/-- C6: each `RpuManager` method passes the SDK response through
unchanged with a nil error on success, and returns nil together with
the fixed `"RollingUpdate Error"` value on failure. -/
theorem C6_rpu_error_translation {α : Type} (x : α) (e : String) :
    Rpu.RpuInsert (Except.ok x) = (some x, none)
  ∧ Rpu.RpuInsert (α := α) (Except.error e) = (none, some "RollingUpdate Error")
  ∧ Rpu.RpuList (Except.ok x) = (some x, none)
  ∧ Rpu.RpuList (α := α) (Except.error e) = (none, some "RollingUpdate Error")
  ∧ Rpu.RpuRollback (Except.ok x) = (some x, none)
  ∧ Rpu.RpuRollback (α := α) (Except.error e) = (none, some "RollingUpdate Error") :=
  ⟨rfl, rfl, rfl, rfl, rfl, rfl⟩

/-- Witness for C6 at a concrete response. -/
theorem C6_rpu_error_translation_witness :
    Rpu.RpuInsert (Except.ok (0 : Nat)) = (some 0, none) :=
  (C6_rpu_error_translation (0 : Nat) "boom").1

/-- C9: `DeleteAll` returns an error exactly when the initial keys-only
query fails; per-key delete failures are swallowed, so it can return
nil while an entity of the kind is still stored. -/
theorem C9_DeleteAll_spec :
    (∀ (store : List Gds.Key) (queryFails : Bool) (deleteFails : Gds.Key → Bool)
       (kindName : String),
       ((Gds.DeleteAll store queryFails deleteFails kindName).1 ≠ none ↔ queryFails = true))
  ∧ Gds.DeleteAll [⟨"K", "a"⟩] false (fun _ => true) "K" = (none, [⟨"K", "a"⟩]) := by
  constructor
  · intro store qf df kindName
    cases qf <;> simp [Gds.DeleteAll]
  · rfl

/-- Witness for C9 at a concrete store. -/
theorem C9_DeleteAll_spec_witness :
    (Gds.DeleteAll [(⟨"K", "a"⟩ : Gds.Key)] true (fun _ => false) "K").1 ≠ none :=
  (C9_DeleteAll_spec.1 [⟨"K", "a"⟩] true (fun _ => false) "K").mpr rfl

/-- C10: `GetNatIP` and `GetNetworkIP` return `"missing"` on a nil VM;
on a non-nil VM they read the first network interface (and, for
`GetNatIP`, its first access config), and are well-defined (no panic,
modelled as `none`) exactly when those lists are non-empty. -/
theorem C10_GetIP_spec :
    (Gce.GetNatIP none = some "missing" ∧ Gce.GetNetworkIP none = some "missing")
  ∧ (∀ (v : Gce.Instance) (ni : Gce.NetworkInterface) (ac : Gce.AccessConfig)
       (nis : List Gce.NetworkInterface) (acs : List Gce.AccessConfig),
       v.networkInterfaces = ni :: nis → ni.accessConfigs = ac :: acs →
         Gce.GetNatIP (some v) = some ac.natIP)
  ∧ (∀ (v : Gce.Instance) (ni : Gce.NetworkInterface) (nis : List Gce.NetworkInterface),
       v.networkInterfaces = ni :: nis → Gce.GetNetworkIP (some v) = some ni.networkIP)
  ∧ (∀ v : Gce.Instance, v.networkInterfaces = [] →
       Gce.GetNatIP (some v) = none ∧ Gce.GetNetworkIP (some v) = none)
  ∧ (∀ (v : Gce.Instance) (ni : Gce.NetworkInterface) (nis : List Gce.NetworkInterface),
       v.networkInterfaces = ni :: nis → ni.accessConfigs = [] →
         Gce.GetNatIP (some v) = none) := by
  refine ⟨⟨rfl, rfl⟩, ?_, ?_, ?_, ?_⟩ <;> intros <;>
    simp_all [Gce.GetNatIP, Gce.GetNetworkIP]

/-- Witness for C10 at a concrete VM. -/
theorem C10_GetIP_spec_witness :
    Gce.GetNatIP (some ⟨"vm", [⟨[⟨"1.2.3.4"⟩], "10.0.0.1"⟩]⟩) = some "1.2.3.4" :=
  C10_GetIP_spec.2.1 ⟨"vm", [⟨[⟨"1.2.3.4"⟩], "10.0.0.1"⟩]⟩
    ⟨[⟨"1.2.3.4"⟩], "10.0.0.1"⟩ ⟨"1.2.3.4"⟩ [] [] rfl rfl

/-- C7 counterexample: not every concurrent construct of the repository
is a single goroutine awaited by one boolean channel receive —
`gds.Manager.Iterate` spawns one goroutine per entity and awaits them
with a `sync.WaitGroup`. -/
theorem C7_counterexample :
    ¬ (∀ s ∈ concurrencySites,
        s.goroutines = GoroutineCount.one ∧
        s.await = AwaitMechanism.boolChannelReceive) := by
  decide

/-- C7 (amended): every concurrent construct of the repository is a
single goroutine awaited by one boolean channel receive, except
`gds.Manager.Iterate`, which spawns one goroutine per fetched entity
and awaits them all with a `sync.WaitGroup`. -/
theorem C7_concurrency_catalogue :
    ∀ s ∈ concurrencySites,
      (s.goroutines = GoroutineCount.one ∧
        s.await = AwaitMechanism.boolChannelReceive)
      ∨ (s.location = "gds.Manager.Iterate" ∧
          s.goroutines = GoroutineCount.onePerEntity ∧
          s.await = AwaitMechanism.waitGroupWait) := by
  decide

/-- Witness for C7 at one catalogue entry. -/
theorem C7_concurrency_catalogue_witness :
    ((⟨"gce.Manager.NewVM", GoroutineCount.one,
        AwaitMechanism.boolChannelReceive⟩ : ConcurrencySite).goroutines =
          GoroutineCount.one ∧
      (⟨"gce.Manager.NewVM", GoroutineCount.one,
        AwaitMechanism.boolChannelReceive⟩ : ConcurrencySite).await =
          AwaitMechanism.boolChannelReceive)
    ∨ ((⟨"gce.Manager.NewVM", GoroutineCount.one,
        AwaitMechanism.boolChannelReceive⟩ : ConcurrencySite).location =
          "gds.Manager.Iterate" ∧
      (⟨"gce.Manager.NewVM", GoroutineCount.one,
        AwaitMechanism.boolChannelReceive⟩ : ConcurrencySite).goroutines =
          GoroutineCount.onePerEntity ∧
      (⟨"gce.Manager.NewVM", GoroutineCount.one,
        AwaitMechanism.boolChannelReceive⟩ : ConcurrencySite).await =
          AwaitMechanism.waitGroupWait) :=
  C7_concurrency_catalogue
    ⟨"gce.Manager.NewVM", GoroutineCount.one, AwaitMechanism.boolChannelReceive⟩
    (by decide)

/-- `ProbeVMRunning` sends `false` exactly when the elapsed time at the
send exceeds the timeout. -/
theorem probeVMRunning_false_iff (polls : Nat → Gce.Poll) (elapsed k : Nat) :
    (Gce.ProbeVMRunning polls elapsed k).sent = false ↔
      Gce.vmCreationTimeout < (Gce.ProbeVMRunning polls elapsed k).elapsed := by
  induction elapsed, k using Gce.ProbeVMRunning.induct polls with
  | case1 elapsed k h =>
    rw [Gce.ProbeVMRunning]
    simp [h]
  | case2 elapsed k h hp ih =>
    rw [Gce.ProbeVMRunning]
    simp only [if_neg h, hp]
    exact ih
  | case3 elapsed k h status hp hne ih =>
    rw [Gce.ProbeVMRunning]
    simp only [if_neg h, hp]
    rw [if_pos hne]
    exact ih
  | case4 elapsed k h status hp hne =>
    rw [Gce.ProbeVMRunning]
    simp only [if_neg h, hp]
    rw [if_neg hne]
    simp
    omega

/-- `ProbeVMRunning` sends `true` only after some poll observed status
`"RUNNING"`. -/
theorem probeVMRunning_true_obs (polls : Nat → Gce.Poll) (elapsed k : Nat) :
    (Gce.ProbeVMRunning polls elapsed k).sent = true →
      ∃ i, k ≤ i ∧ polls i = Gce.Poll.ok "RUNNING" := by
  induction elapsed, k using Gce.ProbeVMRunning.induct polls with
  | case1 elapsed k h =>
    rw [Gce.ProbeVMRunning]
    simp [h]
  | case2 elapsed k h hp ih =>
    rw [Gce.ProbeVMRunning]
    simp only [if_neg h, hp]
    intro hs
    obtain ⟨i, hi, hok⟩ := ih hs
    exact ⟨i, by omega, hok⟩
  | case3 elapsed k h status hp hne ih =>
    rw [Gce.ProbeVMRunning]
    simp only [if_neg h, hp]
    rw [if_pos hne]
    intro hs
    obtain ⟨i, hi, hok⟩ := ih hs
    exact ⟨i, by omega, hok⟩
  | case4 elapsed k h status hp hne =>
    rw [Gce.ProbeVMRunning]
    simp only [if_neg h, hp]
    rw [if_neg hne]
    intro _
    refine ⟨k, le_refl k, ?_⟩
    rw [hp]
    simp at hne
    rw [hne]

/-- `ProbeVMStopped` sends `false` exactly when the elapsed time at the
send exceeds the timeout. -/
theorem probeVMStopped_false_iff (polls : Nat → Gce.Poll) (elapsed k : Nat) :
    (Gce.ProbeVMStopped polls elapsed k).sent = false ↔
      Gce.vmStoppingTimeout < (Gce.ProbeVMStopped polls elapsed k).elapsed := by
  induction elapsed, k using Gce.ProbeVMStopped.induct polls with
  | case1 elapsed k h =>
    rw [Gce.ProbeVMStopped]
    simp [h]
  | case2 elapsed k h hp ih =>
    rw [Gce.ProbeVMStopped]
    simp only [if_neg h, hp]
    exact ih
  | case3 elapsed k h status hp hne ih =>
    rw [Gce.ProbeVMStopped]
    simp only [if_neg h, hp]
    rw [if_pos hne]
    exact ih
  | case4 elapsed k h status hp hne =>
    rw [Gce.ProbeVMStopped]
    simp only [if_neg h, hp]
    rw [if_neg hne]
    simp
    omega

/-- `ProbeVMStopped` sends `true` only after some poll observed status
`"TERMINATED"`. -/
theorem probeVMStopped_true_obs (polls : Nat → Gce.Poll) (elapsed k : Nat) :
    (Gce.ProbeVMStopped polls elapsed k).sent = true →
      ∃ i, k ≤ i ∧ polls i = Gce.Poll.ok Gce.vmStatusTerminated := by
  induction elapsed, k using Gce.ProbeVMStopped.induct polls with
  | case1 elapsed k h =>
    rw [Gce.ProbeVMStopped]
    simp [h]
  | case2 elapsed k h hp ih =>
    rw [Gce.ProbeVMStopped]
    simp only [if_neg h, hp]
    intro hs
    obtain ⟨i, hi, hok⟩ := ih hs
    exact ⟨i, by omega, hok⟩
  | case3 elapsed k h status hp hne ih =>
    rw [Gce.ProbeVMStopped]
    simp only [if_neg h, hp]
    rw [if_pos hne]
    intro hs
    obtain ⟨i, hi, hok⟩ := ih hs
    exact ⟨i, by omega, hok⟩
  | case4 elapsed k h status hp hne =>
    rw [Gce.ProbeVMStopped]
    simp only [if_neg h, hp]
    rw [if_neg hne]
    intro _
    refine ⟨k, le_refl k, ?_⟩
    rw [hp]
    simp at hne
    rw [hne]

/-- `ProbeDiskCreation` sends `false` exactly when the elapsed time at
the send exceeds the timeout. -/
theorem probeDiskCreation_false_iff (polls : Nat → Gce.Poll) (elapsed k : Nat) :
    (Gce.ProbeDiskCreation polls elapsed k).sent = false ↔
      Gce.diskCreationTimeout < (Gce.ProbeDiskCreation polls elapsed k).elapsed := by
  induction elapsed, k using Gce.ProbeDiskCreation.induct polls with
  | case1 elapsed k h =>
    rw [Gce.ProbeDiskCreation]
    simp [h]
  | case2 elapsed k h hp ih =>
    rw [Gce.ProbeDiskCreation]
    simp only [if_neg h, hp]
    exact ih
  | case3 elapsed k h status hp hne ih =>
    rw [Gce.ProbeDiskCreation]
    simp only [if_neg h, hp]
    rw [if_pos hne]
    exact ih
  | case4 elapsed k h status hp hne =>
    rw [Gce.ProbeDiskCreation]
    simp only [if_neg h, hp]
    rw [if_neg hne]
    simp
    omega

/-- `ProbeDiskCreation` sends `true` only after some poll observed disk
status `"READY"`. -/
theorem probeDiskCreation_true_obs (polls : Nat → Gce.Poll) (elapsed k : Nat) :
    (Gce.ProbeDiskCreation polls elapsed k).sent = true →
      ∃ i, k ≤ i ∧ polls i = Gce.Poll.ok "READY" := by
  induction elapsed, k using Gce.ProbeDiskCreation.induct polls with
  | case1 elapsed k h =>
    rw [Gce.ProbeDiskCreation]
    simp [h]
  | case2 elapsed k h hp ih =>
    rw [Gce.ProbeDiskCreation]
    simp only [if_neg h, hp]
    intro hs
    obtain ⟨i, hi, hok⟩ := ih hs
    exact ⟨i, by omega, hok⟩
  | case3 elapsed k h status hp hne ih =>
    rw [Gce.ProbeDiskCreation]
    simp only [if_neg h, hp]
    rw [if_pos hne]
    intro hs
    obtain ⟨i, hi, hok⟩ := ih hs
    exact ⟨i, by omega, hok⟩
  | case4 elapsed k h status hp hne =>
    rw [Gce.ProbeDiskCreation]
    simp only [if_neg h, hp]
    rw [if_neg hne]
    intro _
    refine ⟨k, le_refl k, ?_⟩
    rw [hp]
    simp at hne
    rw [hne]

/-- `ProbeVMMachineTypeChanged` sends `false` exactly when the elapsed
time at the send exceeds the timeout. -/
theorem probeVMMachineTypeChanged_false_iff (machineType : String)
    (polls : Nat → Option String) (elapsed k : Nat) :
    (Gce.ProbeVMMachineTypeChanged machineType polls elapsed k).sent = false ↔
      Gce.vmSetMachineTypeTimeout <
        (Gce.ProbeVMMachineTypeChanged machineType polls elapsed k).elapsed := by
  induction elapsed, k using Gce.ProbeVMMachineTypeChanged.induct machineType polls with
  | case1 elapsed k h =>
    rw [Gce.ProbeVMMachineTypeChanged]
    simp [h]
  | case2 elapsed k h hp ih =>
    rw [Gce.ProbeVMMachineTypeChanged]
    simp only [if_neg h, hp]
    exact ih
  | case3 elapsed k h uri hp hne ih =>
    rw [Gce.ProbeVMMachineTypeChanged]
    simp only [if_neg h, hp]
    rw [if_pos hne]
    exact ih
  | case4 elapsed k h uri hp hne =>
    rw [Gce.ProbeVMMachineTypeChanged]
    simp only [if_neg h, hp]
    rw [if_neg hne]
    simp
    omega

/-- `ProbeInstanceTemplateCreation` sends `false` exactly when the
elapsed time at the send exceeds the timeout. -/
theorem probeInstanceTemplateCreation_false_iff (polls : Nat → Bool) (elapsed k : Nat) :
    (Gce.ProbeInstanceTemplateCreation polls elapsed k).sent = false ↔
      Gce.instanceTemplateCreationTimeout <
        (Gce.ProbeInstanceTemplateCreation polls elapsed k).elapsed := by
  induction elapsed, k using Gce.ProbeInstanceTemplateCreation.induct polls with
  | case1 elapsed k h =>
    rw [Gce.ProbeInstanceTemplateCreation]
    simp [h]
  | case2 elapsed k h hp =>
    rw [Gce.ProbeInstanceTemplateCreation]
    simp only [if_neg h, hp]
    simp
    omega
  | case3 elapsed k h hp ih =>
    rw [Gce.ProbeInstanceTemplateCreation]
    simp only [if_neg h, hp]
    exact ih

/-- `ProbeInstanceTemplateCreation` sends `true` only after a
`GetInstanceTemplate` call succeeded. -/
theorem probeInstanceTemplateCreation_true_obs (polls : Nat → Bool) (elapsed k : Nat) :
    (Gce.ProbeInstanceTemplateCreation polls elapsed k).sent = true →
      ∃ i, k ≤ i ∧ polls i = true := by
  induction elapsed, k using Gce.ProbeInstanceTemplateCreation.induct polls with
  | case1 elapsed k h =>
    rw [Gce.ProbeInstanceTemplateCreation]
    simp [h]
  | case2 elapsed k h hp =>
    rw [Gce.ProbeInstanceTemplateCreation]
    simp only [if_neg h, hp]
    intro _
    exact ⟨k, le_refl k, hp⟩
  | case3 elapsed k h hp ih =>
    rw [Gce.ProbeInstanceTemplateCreation]
    simp only [if_neg h, hp]
    intro hs
    obtain ⟨i, hi, hok⟩ := ih (by simpa using hs)
    exact ⟨i, by omega, hok⟩

/-- C2: each status-polling loop signals success only when the polled
resource reached its target state: `ProbeVMRunning` sends `true` only
after a poll returned status `"RUNNING"`, `ProbeVMStopped` only after
`"TERMINATED"`, `ProbeDiskCreation` only after `"READY"`; until then
each iteration before timeout sleeps and polls again without sending. -/
theorem C2_probe_target_states (pollsV pollsS pollsD : Nat → Gce.Poll)
    (elapsed k : Nat) :
    ((Gce.ProbeVMRunning pollsV elapsed k).sent = true →
        ∃ i, k ≤ i ∧ pollsV i = Gce.Poll.ok "RUNNING")
  ∧ ((Gce.ProbeVMStopped pollsS elapsed k).sent = true →
        ∃ i, k ≤ i ∧ pollsS i = Gce.Poll.ok "TERMINATED")
  ∧ ((Gce.ProbeDiskCreation pollsD elapsed k).sent = true →
        ∃ i, k ≤ i ∧ pollsD i = Gce.Poll.ok "READY") :=
  ⟨probeVMRunning_true_obs pollsV elapsed k,
   probeVMStopped_true_obs pollsS elapsed k,
   probeDiskCreation_true_obs pollsD elapsed k⟩

/-- Witness for C2 on a trace whose first poll already shows the
target state. -/
theorem C2_probe_target_states_witness :
    ∃ i, 0 ≤ i ∧ (fun _ => Gce.Poll.ok "RUNNING") i = Gce.Poll.ok "RUNNING" :=
  (C2_probe_target_states (fun _ => Gce.Poll.ok "RUNNING")
      (fun _ => Gce.Poll.ok "TERMINATED") (fun _ => Gce.Poll.ok "READY") 0 0).1
    (by rw [Gce.ProbeVMRunning]; simp [Gce.vmCreationTimeout])

/-- C4: each blocking method (`NewVM`, `NewDisk`, `SetMachineType`,
`NewInstanceTemplate`) returns nil exactly when its probe observed the
target condition, returns its timeout error exactly when the probe sent
`false`, and the probe sends `false` exactly when more than the
180-second timeout has elapsed since it started polling. -/
theorem C4_blocking_methods_timeout (pollsV pollsD : Nat → Gce.Poll)
    (pollsM : Nat → Option String) (pollsT : Nat → Bool)
    (machineType : String) (elapsed k : Nat) :
    (Gce.NewVM false pollsV = none ↔ (Gce.ProbeVMRunning pollsV 0 0).sent = true)
  ∧ (Gce.NewVM false pollsV = some "NewVM timeout" ↔
      (Gce.ProbeVMRunning pollsV 0 0).sent = false)
  ∧ (Gce.NewDisk false pollsD = none ↔ (Gce.ProbeDiskCreation pollsD 0 0).sent = true)
  ∧ (Gce.NewDisk false pollsD = some "NewDisk timeout" ↔
      (Gce.ProbeDiskCreation pollsD 0 0).sent = false)
  ∧ (Gce.SetMachineType false machineType pollsM = none ↔
      (Gce.ProbeVMMachineTypeChanged machineType pollsM 0 0).sent = true)
  ∧ (Gce.SetMachineType false machineType pollsM = some "SetMachineType timeout" ↔
      (Gce.ProbeVMMachineTypeChanged machineType pollsM 0 0).sent = false)
  ∧ (Gce.NewInstanceTemplate false pollsT = none ↔
      (Gce.ProbeInstanceTemplateCreation pollsT 0 0).sent = true)
  ∧ (Gce.NewInstanceTemplate false pollsT = some "Timeout new instance template" ↔
      (Gce.ProbeInstanceTemplateCreation pollsT 0 0).sent = false)
  ∧ ((Gce.ProbeVMRunning pollsV elapsed k).sent = false ↔
      Gce.vmCreationTimeout < (Gce.ProbeVMRunning pollsV elapsed k).elapsed)
  ∧ ((Gce.ProbeDiskCreation pollsD elapsed k).sent = false ↔
      Gce.diskCreationTimeout < (Gce.ProbeDiskCreation pollsD elapsed k).elapsed)
  ∧ ((Gce.ProbeVMMachineTypeChanged machineType pollsM elapsed k).sent = false ↔
      Gce.vmSetMachineTypeTimeout <
        (Gce.ProbeVMMachineTypeChanged machineType pollsM elapsed k).elapsed)
  ∧ ((Gce.ProbeInstanceTemplateCreation pollsT elapsed k).sent = false ↔
      Gce.instanceTemplateCreationTimeout <
        (Gce.ProbeInstanceTemplateCreation pollsT elapsed k).elapsed) := by
  refine ⟨?_, ?_, ?_, ?_, ?_, ?_, ?_, ?_,
    probeVMRunning_false_iff pollsV elapsed k,
    probeDiskCreation_false_iff pollsD elapsed k,
    probeVMMachineTypeChanged_false_iff machineType pollsM elapsed k,
    probeInstanceTemplateCreation_false_iff pollsT elapsed k⟩
  · cases h : (Gce.ProbeVMRunning pollsV 0 0).sent <;> simp [Gce.NewVM, h]
  · cases h : (Gce.ProbeVMRunning pollsV 0 0).sent <;> simp [Gce.NewVM, h]
  · cases h : (Gce.ProbeDiskCreation pollsD 0 0).sent <;> simp [Gce.NewDisk, h]
  · cases h : (Gce.ProbeDiskCreation pollsD 0 0).sent <;> simp [Gce.NewDisk, h]
  · cases h : (Gce.ProbeVMMachineTypeChanged machineType pollsM 0 0).sent <;>
      simp [Gce.SetMachineType, h]
  · cases h : (Gce.ProbeVMMachineTypeChanged machineType pollsM 0 0).sent <;>
      simp [Gce.SetMachineType, h]
  · cases h : (Gce.ProbeInstanceTemplateCreation pollsT 0 0).sent <;>
      simp [Gce.NewInstanceTemplate, h]
  · cases h : (Gce.ProbeInstanceTemplateCreation pollsT 0 0).sent <;>
      simp [Gce.NewInstanceTemplate, h]

/-- Witness for C4 on a trace that reaches the target on its first
poll. -/
theorem C4_blocking_methods_timeout_witness :
    Gce.NewVM false (fun _ => Gce.Poll.ok "RUNNING") = none :=
  (C4_blocking_methods_timeout (fun _ => Gce.Poll.ok "RUNNING")
      (fun _ => Gce.Poll.ok "READY") (fun _ => some "a/b") (fun _ => true) "b" 0 0).1.mpr
    (by rw [Gce.ProbeVMRunning]; simp [Gce.vmCreationTimeout])

/-- C5: `NewInstanceTemplate` returns nil exactly when its polling loop
signalled success, which it does only once a `GetInstanceTemplate` call
has succeeded (the creation is complete); otherwise the loop times out
after 180 seconds and the method returns the timeout error. -/
theorem C5_NewInstanceTemplate_blocks (pollsT : Nat → Bool) (elapsed k : Nat) :
    ((Gce.ProbeInstanceTemplateCreation pollsT elapsed k).sent = true →
        ∃ i, k ≤ i ∧ pollsT i = true)
  ∧ (Gce.NewInstanceTemplate false pollsT = none ↔
        (Gce.ProbeInstanceTemplateCreation pollsT 0 0).sent = true)
  ∧ ((Gce.ProbeInstanceTemplateCreation pollsT elapsed k).sent = false ↔
        Gce.instanceTemplateCreationTimeout <
          (Gce.ProbeInstanceTemplateCreation pollsT elapsed k).elapsed) := by
  refine ⟨probeInstanceTemplateCreation_true_obs pollsT elapsed k, ?_,
    probeInstanceTemplateCreation_false_iff pollsT elapsed k⟩
  cases h : (Gce.ProbeInstanceTemplateCreation pollsT 0 0).sent <;>
    simp [Gce.NewInstanceTemplate, h]

/-- Witness for C5 on a trace whose first template fetch succeeds. -/
theorem C5_NewInstanceTemplate_blocks_witness :
    ∃ i, 0 ≤ i ∧ (fun _ => true) i = true :=
  (C5_NewInstanceTemplate_blocks (fun _ => true) 0 0).1
    (by rw [Gce.ProbeInstanceTemplateCreation]; simp [Gce.instanceTemplateCreationTimeout])

/-- Draining an iterator yields its remaining entities and leaves the
position just after the last yielded one. -/
theorem collectAll_spec {α : Type} :
    ∀ (l : List (Gds.Key × α)) (pos : Nat),
      Gds.collectAll ⟨l, pos⟩ = (l, ⟨[], pos + l.length⟩)
  | [], pos => by simp [Gds.collectAll]
  | e :: rest, pos => by
    simp only [Gds.collectAll, collectAll_spec rest (pos + 1), List.length_cons]
    refine Prod.ext rfl ?_
    simp
    omega

/-- Decoding inverts encoding of cursors. -/
theorem decodeCursor_encodeCursor (n : Nat) :
    Gds.decodeCursor (Gds.encodeCursor n) = some n := by
  simp [Gds.decodeCursor, Gds.encodeCursor, List.all_eq_true]

/-- An encoded cursor is never the empty string. -/
theorem encodeCursor_ne_empty (n : Nat) : Gds.encodeCursor n ≠ "" := by
  simp [Gds.encodeCursor]
  intro h
  have := congrArg (fun s => s.data.length) h
  simp at this

/-- Cursor encoding is injective. -/
theorem encodeCursor_inj {a b : Nat} (h : Gds.encodeCursor a = Gds.encodeCursor b) :
    a = b := by
  have := congrArg (fun s => s.data.length) h
  simp [Gds.encodeCursor] at this
  exact this

/-- The start position determined by an encoded cursor string. -/
theorem startOfCursor_encodeCursor (n : Nat) :
    Gds.startOfCursor (Gds.encodeCursor n) = some n := by
  rw [Gds.startOfCursor, if_neg (encodeCursor_ne_empty n), decodeCursor_encodeCursor]

/-- `Iterate` on an encoded cursor: yields the post-cursor page cut to
the limit, and returns the cursor just after the last yielded entity. -/
theorem Iterate_encodeCursor {α : Type} (results : List (Gds.Key × α))
    (limit : Option Nat) (start : Nat) :
    Gds.Iterate results limit (Gds.encodeCursor start) =
      Except.ok (Gds.applyLimit (results.drop start) limit,
        Gds.encodeCursor (start + (Gds.applyLimit (results.drop start) limit).length)) := by
  rw [Gds.Iterate, startOfCursor_encodeCursor]
  simp [Gds.runQuery, collectAll_spec]

/-- `Iterate` on the empty cursor string starts at the beginning. -/
theorem Iterate_emptyCursor {α : Type} (results : List (Gds.Key × α))
    (limit : Option Nat) :
    Gds.Iterate results limit "" =
      Except.ok (Gds.applyLimit results limit,
        Gds.encodeCursor (Gds.applyLimit results limit).length) := by
  rw [Gds.Iterate]
  have h0 : Gds.startOfCursor "" = some 0 := rfl
  rw [h0]
  simp [Gds.runQuery, collectAll_spec]

/-- Dropping the length of a `take` is the same as dropping the take
count. -/
theorem drop_length_take {α : Type} (b : Nat) (l : List α) :
    l.drop (l.take b).length = l.drop b := by
  rcases le_or_lt b l.length with h | h
  · rw [List.length_take]
    congr 1
    omega
  · rw [List.length_take]
    have h1 : l.drop (min b l.length) = [] := by
      rw [List.drop_eq_nil_iff]
      omega
    have h2 : l.drop b = [] := by
      rw [List.drop_eq_nil_iff]
      omega
    rw [h1, h2]

/-- The `BatchIterate` loop, entered at an encoded cursor with enough
fuel, collects exactly the entities from that position on. -/
theorem batchIterateAux_ok {α : Type} (results : List (Gds.Key × α)) (b : Nat)
    (hb : 1 ≤ b) :
    ∀ (fuel start : Nat), start ≤ results.length →
      results.length - start + 1 ≤ fuel →
      Gds.batchIterateAux results b (Gds.encodeCursor start) fuel =
        Except.ok (results.drop start)
  | 0, start, _, hfuel => by omega
  | fuel + 1, start, hstart, hfuel => by
    rcases lt_or_ge start results.length with hlt | hge
    · rw [Gds.batchIterateAux, Iterate_encodeCursor]
      dsimp only
      have hlen : (Gds.applyLimit (results.drop start) (some b)).length =
          min b (results.length - start) := by
        simp [Gds.applyLimit, List.length_take]
      have hpos : 1 ≤ min b (results.length - start) := by omega
      have hne : Gds.encodeCursor start ≠
          Gds.encodeCursor (start + (Gds.applyLimit (results.drop start) (some b)).length) := by
        intro h
        have := encodeCursor_inj h
        omega
      rw [if_neg hne]
      rw [batchIterateAux_ok results b hb fuel
        (start + (Gds.applyLimit (results.drop start) (some b)).length)
        (by rw [hlen]; omega) (by rw [hlen]; omega)]
      simp only [Gds.applyLimit]
      rw [← List.drop_drop, drop_length_take b (results.drop start),
        List.take_append_drop]
    · have hD : results.drop start = [] := List.drop_eq_nil_iff.mpr hge
      rw [Gds.batchIterateAux, Iterate_encodeCursor]
      simp [Gds.applyLimit, hD]

/-- C3: `Iterate` applies `op` exactly once to every entity the query
yields (the returned list is the op-application trace), starting after
the decoded cursor when the cursor string is non-empty, and returns the
cursor positioned after the last yielded entity; consequently
`BatchIterate`, for every `batchSize ≥ 1`, applies `op` exactly once to
every entity matching the query (its trace is exactly the full result
sequence), fetching pages of at most `batchSize` entities per round and
terminating when a round returns the cursor it started with. -/
theorem C3_iterate_batchIterate_spec {α : Type} (results : List (Gds.Key × α))
    (limit : Option Nat) (start batchSize : Nat) :
    (Gds.Iterate results limit "" =
      Except.ok (Gds.applyLimit results limit,
        Gds.encodeCursor (Gds.applyLimit results limit).length))
  ∧ (Gds.Iterate results limit (Gds.encodeCursor start) =
      Except.ok (Gds.applyLimit (results.drop start) limit,
        Gds.encodeCursor (start + (Gds.applyLimit (results.drop start) limit).length)))
  ∧ (1 ≤ batchSize → Gds.BatchIterate results batchSize = Except.ok results) := by
  refine ⟨Iterate_emptyCursor results limit, Iterate_encodeCursor results limit start, ?_⟩
  intro hb
  rw [Gds.BatchIterate, Gds.batchIterateAux, Iterate_emptyCursor]
  dsimp only
  rw [if_neg (fun h => encodeCursor_ne_empty _ h.symm)]
  have hlen : (Gds.applyLimit results (some batchSize)).length =
      min batchSize results.length := by
    simp [Gds.applyLimit, List.length_take]
  rw [batchIterateAux_ok results batchSize hb (results.length + 1)
    (Gds.applyLimit results (some batchSize)).length
    (by rw [hlen]; omega) (by rw [hlen]; omega)]
  simp only [Gds.applyLimit]
  rw [drop_length_take batchSize results, List.take_append_drop]

/-- Witness for C3 on a concrete three-entity result sequence paged in
batches of two. -/
theorem C3_iterate_batchIterate_spec_witness :
    Gds.BatchIterate
      [((⟨"K", "a"⟩ : Gds.Key), (1 : Nat)), (⟨"K", "b"⟩, 2), (⟨"K", "c"⟩, 3)] 2 =
      Except.ok
        [((⟨"K", "a"⟩ : Gds.Key), (1 : Nat)), (⟨"K", "b"⟩, 2), (⟨"K", "c"⟩, 3)] :=
  (C3_iterate_batchIterate_spec
    [((⟨"K", "a"⟩ : Gds.Key), (1 : Nat)), (⟨"K", "b"⟩, 2), (⟨"K", "c"⟩, 3)]
    none 0 2).2.2 (by decide)

/-- In a `le`-pairwise list, the last element is a member and bounds
every element from above (up to equality). -/
theorem pairwise_getLast?_max {α : Type} {le : α → α → Bool} :
    ∀ (l : List α) (m : α), List.Pairwise (fun a b => le a b = true) l →
      l.getLast? = some m → m ∈ l ∧ ∀ x ∈ l, x = m ∨ le x m = true
  | [], m, _, hlast => by simp at hlast
  | [a], m, _, hlast => by
    simp only [List.getLast?_singleton, Option.some.injEq] at hlast
    subst hlast
    simp
  | a :: b :: t, m, hpw, hlast => by
    rw [List.getLast?_cons_cons] at hlast
    rw [List.pairwise_cons] at hpw
    obtain ⟨ha, hpw'⟩ := hpw
    obtain ⟨hmem, hmax⟩ := pairwise_getLast?_max (b :: t) m hpw' hlast
    refine ⟨List.mem_cons_of_mem a hmem, ?_⟩
    intro x hx
    rcases List.mem_cons.mp hx with rfl | hx'
    · exact Or.inr (ha m hmem)
    · exact hmax x hx'

/-- C8: `GetLatestSnapshot(p, s)` errors exactly when no snapshot name
in `s` contains `p` as a substring, and otherwise returns a snapshot of
`s` whose name contains `p` and is lexicographically greatest among the
matching snapshots. -/
theorem C8_GetLatestSnapshot_spec (pfx : String) (snapshots : List Gce.Snapshot) :
    (Gce.GetLatestSnapshot pfx snapshots = none ↔
      ∀ s ∈ snapshots, Gce.strContains s.name pfx = false)
  ∧ (∀ s, Gce.GetLatestSnapshot pfx snapshots = some s →
      s ∈ snapshots ∧ Gce.strContains s.name pfx = true ∧
      ∀ t ∈ snapshots, Gce.strContains t.name pfx = true → t.name ≤ s.name) := by
  set le : Gce.Snapshot → Gce.Snapshot → Bool :=
    fun a b => decide (a.name ≤ b.name) with hle
  set filtered := snapshots.filter (fun s => Gce.strContains s.name pfx) with hf
  have hperm : (filtered.mergeSort le).Perm filtered := List.mergeSort_perm filtered le
  have hunfold : Gce.GetLatestSnapshot pfx snapshots = (filtered.mergeSort le).getLast? := rfl
  constructor
  · rw [hunfold, List.getLast?_eq_none_iff]
    constructor
    · intro hnil s hs
      have hfe : filtered = [] := ((hnil ▸ hperm : List.Perm [] filtered).nil_eq).symm
      by_contra hc
      have hsf : s ∈ filtered := by
        rw [hf, List.mem_filter]
        exact ⟨hs, by simpa using hc⟩
      rw [hfe] at hsf
      exact absurd hsf (List.not_mem_nil s)
    · intro hall
      have : filtered = [] := by
        rw [hf, List.filter_eq_nil_iff]
        intro a ha
        simp [hall a ha]
      rw [this, List.mergeSort_nil]
  · intro s hs
    rw [hunfold] at hs
    have hsorted : List.Pairwise (fun a b => le a b = true) (filtered.mergeSort le) :=
      List.sorted_mergeSort
        (fun a b c h1 h2 => by
          rw [hle] at *
          exact decide_eq_true (le_trans (of_decide_eq_true h1) (of_decide_eq_true h2)))
        (fun a b => by
          rw [hle]
          rcases le_total a.name b.name with h | h <;> simp [h])
        filtered
    obtain ⟨hmem, hmax⟩ := pairwise_getLast?_max (filtered.mergeSort le) s hsorted hs
    have hsf : s ∈ filtered := hperm.mem_iff.mp hmem
    rw [hf, List.mem_filter] at hsf
    refine ⟨hsf.1, hsf.2, ?_⟩
    intro t ht htc
    have htf : t ∈ filtered.mergeSort le := by
      rw [hperm.mem_iff, hf, List.mem_filter]
      exact ⟨ht, htc⟩
    rcases hmax t htf with rfl | hle2
    · exact le_refl _
    · rw [hle] at hle2
      exact of_decide_eq_true hle2

/-- Witness for C8 at a concrete snapshot list. -/
theorem C8_GetLatestSnapshot_spec_witness :
    Gce.GetLatestSnapshot "db" [⟨"img-9"⟩] = none :=
  (C8_GetLatestSnapshot_spec "db" [⟨"img-9"⟩]).1.mpr (by
    intro s hs
    rcases List.mem_singleton.mp hs with rfl
    decide)

end Gogoo
